import Mathlib

/-!
Verification of the SPSC lock-free byte fifo `no_os_lf256fifo.c` from the
Analog Devices no-OS repository, against its natural-language specification.

The C structure `struct lf256fifo` holds a 256-byte buffer `data`, the
consumer index `ffilled` ("first filled slot", the head) and the producer
index `fempty` ("first empty slot", the tail), both of type `uint8_t`.
We embed the state shallowly: bytes and indices are `Nat`, with the
`uint8_t` wraparound written as an explicit `% 256` at every point where
the C code stores back into a `uint8_t` field.

One point of C semantics is decisive and is modelled exactly as the C
abstract machine executes it: in `lf256fifo_is_full` the expression
`fifo->fempty + 1 == fifo->ffilled` promotes both `uint8_t` operands to
`int` before adding and comparing, so the addition does NOT wrap at 256
(the source comment "intended overflow at 256" notwithstanding).  The
post-increments `fifo->ffilled++` and `fifo->fempty++` DO wrap, because
the incremented value is stored back into the `uint8_t` field.
-/

namespace LF256

/-- The fifo state, embedding `struct lf256fifo`.  `data` is the 256-byte
buffer, `ffilled` the consumer (head) index, `fempty` the producer (tail)
index; both indices are `uint8_t` in C, so reachable states keep them
below 256. -/
structure lf256fifo where
  data : List Nat
  ffilled : Nat
  fempty : Nat
deriving Repr, DecidableEq

/-- `lf256fifo_is_full`: the C code returns `(fifo->fempty + 1) == fifo->ffilled`.
Both operands are promoted from `uint8_t` to `int`, so `fempty + 1` is an
exact integer sum (no wrap at 256); we model it as an exact `Nat` sum. -/
def lf256fifo_is_full (fifo : lf256fifo) : Bool :=
  fifo.fempty + 1 == fifo.ffilled

/-- `lf256fifo_is_empty`: returns `fifo->fempty == fifo->ffilled`. -/
def lf256fifo_is_empty (fifo : lf256fifo) : Bool :=
  fifo.fempty == fifo.ffilled

/-- `lf256fifo_read(fifo, c)`: the C function returns an `int` status and
writes the byte through the out-pointer `c`.  We pass the pointee value in
and return `(status, fifo after, pointee after)`.  On empty it returns
`-1` touching nothing; otherwise it loads `data[ffilled]` into `*c` and
post-increments the `uint8_t` field `ffilled` (wrapping at 256). -/
def lf256fifo_read (fifo : lf256fifo) (c : Nat) : Int × lf256fifo × Nat :=
  if lf256fifo_is_empty fifo then
    (-1, fifo, c)
  else
    (0, { fifo with ffilled := (fifo.ffilled + 1) % 256 },
     fifo.data.getD fifo.ffilled 0)

/-- `lf256fifo_write(fifo, c)`: returns `-1` when `lf256fifo_is_full`
reports full, touching nothing; otherwise stores `c` at `data[fempty]`
and post-increments the `uint8_t` field `fempty` (wrapping at 256). -/
def lf256fifo_write (fifo : lf256fifo) (c : Nat) : Int × lf256fifo :=
  if lf256fifo_is_full fifo then
    (-1, fifo)
  else
    (0, { fifo with data := fifo.data.set fifo.fempty c,
                    fempty := (fifo.fempty + 1) % 256 })

/-- `lf256fifo_flush`: sets `ffilled := fempty`. -/
def lf256fifo_flush (fifo : lf256fifo) : lf256fifo :=
  { fifo with ffilled := fifo.fempty }

/-- Possible outcomes of `lf256fifo_init`, which returns `-EINVAL`,
`-ENOMEM` or `0` with the fifo written through the out-pointer. -/
inductive InitResult where
  | ok (q : lf256fifo)
  | einval
  | enomem
deriving Repr, DecidableEq

/-- The state produced by a successful `lf256fifo_init`: both `calloc`
calls zero their memory, so the buffer is 256 zero bytes and
`ffilled = fempty = 0`. -/
def freshQueue : lf256fifo :=
  { data := List.replicate 256 0, ffilled := 0, fempty := 0 }

/-- `lf256fifo_init(fifo)`: `ptrValid` models whether the out-pointer
`fifo` is non-NULL, `allocCtrl` and `allocData` model whether the two
`calloc` calls (control structure, 256-byte buffer) succeed.  The C code
returns `-EINVAL` for a NULL out-pointer before any allocation, `-ENOMEM`
when either allocation fails, else stores the zeroed state. -/
def lf256fifo_init (ptrValid allocCtrl allocData : Bool) : InitResult :=
  if !ptrValid then .einval
  else if !allocCtrl then .enomem
  else if !allocData then .enomem
  else .ok freshQueue

/-- Run a sequence of writes with no interleaved read; returns the final
fifo state and the number of writes that returned failure (`-1`). -/
def writeMany (q : lf256fifo) : List Nat → lf256fifo × Nat
  | [] => (q, 0)
  | c :: cs =>
    let r := lf256fifo_write q c
    let rest := writeMany r.2 cs
    (rest.1, (if r.1 = 0 then 0 else 1) + rest.2)

/-- C1: the claim says `is_full` is true iff `(tail + 1) % 256 == head`,
in particular at `tail = 255, head = 0`.  In the C code the comparison is
performed after promotion to `int`, so at `fempty = 255, ffilled = 0` it
compares `256 == 0` and returns `false`, even though
`(255 + 1) % 256 = 0 = ffilled`: the code contradicts its own comment
"intended overflow at 256". -/
theorem C1_is_full_wraparound_bug :
    lf256fifo_is_full
      { data := List.replicate 256 0, ffilled := 0, fempty := 255 } = false
    ∧ (255 + 1) % 256 = 0 := by
  decide

/-- As long as the consumer index `ffilled` is 0, the full check compares
`fempty + 1` (an exact sum, at least 1) with 0, so every write is
accepted: a whole write sequence succeeds, `ffilled` stays 0 and `fempty`
advances by the length of the sequence modulo 256. -/
lemma writeMany_ffilled_eq_zero (cs : List Nat) (q : lf256fifo)
    (hf : q.ffilled = 0) (hlt : q.fempty < 256) :
    (writeMany q cs).2 = 0
    ∧ (writeMany q cs).1.ffilled = 0
    ∧ (writeMany q cs).1.fempty = (q.fempty + cs.length) % 256 := by
  induction cs generalizing q with
  | nil =>
    exact ⟨rfl, hf, by simp [writeMany, Nat.mod_eq_of_lt hlt]⟩
  | cons c cs ih =>
    have hfull : lf256fifo_is_full q = false := by
      simp [lf256fifo_is_full, hf]
    obtain ⟨h1, h2, h3⟩ :=
      ih { q with data := q.data.set q.fempty c, fempty := (q.fempty + 1) % 256 }
        hf (Nat.mod_lt _ (by decide))
    have hmod : ((q.fempty + 1) % 256 + cs.length) % 256
        = (q.fempty + (cs.length + 1)) % 256 := by
      rw [Nat.mod_add_mod]
      ring_nf
    refine ⟨?_, ?_, ?_⟩
    · simp [writeMany, lf256fifo_write, hfull, h1]
    · simpa [writeMany, lf256fifo_write, hfull] using h2
    · simp only [writeMany, lf256fifo_write, hfull, Bool.false_eq_true, if_false,
        List.length_cons]
      rw [h3]
      exact hmod.trans (by ring_nf)

/-- C2: the claim says that starting from a freshly initialized queue,
the first 255 writes succeed, `is_full` then becomes true, and the 256th
write returns Full without mutating.  On the code: the 255 writes do all
succeed, but `is_full` is still false afterwards (the promoted comparison
`256 == 0` fails), and the 256th write also succeeds, wrapping `fempty`
back to 0 so the fifo then reports empty. -/
theorem C2_fill_to_capacity_bug :
    (writeMany freshQueue (List.replicate 255 7)).2 = 0
    ∧ lf256fifo_is_full (writeMany freshQueue (List.replicate 255 7)).1 = false
    ∧ (lf256fifo_write (writeMany freshQueue (List.replicate 255 7)).1 9).1 = 0
    ∧ (lf256fifo_write (writeMany freshQueue (List.replicate 255 7)).1 9).2.fempty = 0 := by
  obtain ⟨h1, h2, h3⟩ :=
    writeMany_ffilled_eq_zero (List.replicate 255 7) freshQueue rfl (by decide)
  rw [List.length_replicate] at h3
  generalize hs : (writeMany freshQueue (List.replicate 255 7)).1 = s at h2 h3 ⊢
  have hq0 : freshQueue.fempty = 0 := rfl
  rw [hq0] at h3
  have h3' : s.fempty = 255 := by simpa using h3
  have hfull : lf256fifo_is_full s = false := by
    simp [lf256fifo_is_full, h2, h3']
  exact ⟨h1, hfull, by simp [lf256fifo_write, hfull],
    by simp [lf256fifo_write, hfull, h3']⟩

/-- C3: the claim says that from any reachable state, any `k ≤ 255` bytes
accepted by `write` and followed by `k` reads come back in order.  After
255 writes from fresh the reachable state has `ffilled = 0, fempty = 255`;
there a further write of byte 42 is accepted (k = 1) because the full
check misses the wraparound, after which `fempty = ffilled = 0` and the
single read returns `-1` (Empty) with the out-byte untouched, instead of
returning the byte 42. -/
theorem C3_fifo_order_bug :
    (writeMany freshQueue (List.replicate 255 7)).1.ffilled = 0
    ∧ (writeMany freshQueue (List.replicate 255 7)).1.fempty = 255
    ∧ (lf256fifo_write (writeMany freshQueue (List.replicate 255 7)).1 42).1 = 0
    ∧ (lf256fifo_read
        (lf256fifo_write (writeMany freshQueue (List.replicate 255 7)).1 42).2 0).1
      = -1 := by
  obtain ⟨h1, h2, h3⟩ :=
    writeMany_ffilled_eq_zero (List.replicate 255 7) freshQueue rfl (by decide)
  rw [List.length_replicate] at h3
  generalize hs : (writeMany freshQueue (List.replicate 255 7)).1 = s at h2 h3 ⊢
  have hq0 : freshQueue.fempty = 0 := rfl
  rw [hq0] at h3
  have h3' : s.fempty = 255 := by simpa using h3
  have hfull : lf256fifo_is_full s = false := by
    simp [lf256fifo_is_full, h2, h3']
  refine ⟨h2, h3', by simp [lf256fifo_write, hfull], ?_⟩
  simp [lf256fifo_write, hfull, lf256fifo_read, lf256fifo_is_empty, h2, h3']

/-- C5: the claim says `write` returns Full with no mutation whenever
`(tail + 1) % 256 == head`.  At `fempty = 255, ffilled = 0` that modular
condition holds, yet the code's full check compares `256 == 0` after
integer promotion, so the write is accepted and mutates the state. -/
theorem C5_write_full_check_bug :
    ((255 + 1) % 256 = 0)
    ∧ (lf256fifo_write
        { data := List.replicate 256 0, ffilled := 0, fempty := 255 } 9).1 = 0
    ∧ (lf256fifo_write
        { data := List.replicate 256 0, ffilled := 0, fempty := 255 } 9).2.fempty = 0 := by
  decide

/-- C4: `lf256fifo_read` on an empty state (`ffilled == fempty`) returns
the Empty error `-1` and mutates nothing (fifo state and out-byte both
unchanged); on a non-empty state it returns 0, loads `data[ffilled]` into
the out-byte and advances `ffilled` by one modulo 256, leaving `data` and
`fempty` alone. -/
theorem C4_read_spec (q : lf256fifo) (c : Nat) :
    (q.fempty = q.ffilled →
      lf256fifo_read q c = (-1, q, c))
    ∧ (q.fempty ≠ q.ffilled →
      lf256fifo_read q c =
        (0, { q with ffilled := (q.ffilled + 1) % 256 }, q.data.getD q.ffilled 0)) := by
  constructor <;> intro h <;>
    simp [lf256fifo_read, lf256fifo_is_empty, h]

/-- Witness for C4 at concrete inputs: reading the non-empty state
`⟨[9, 8], 0, 1⟩` returns byte 9 and advances `ffilled` to 1. -/
theorem C4_read_spec_witness :
    lf256fifo_read { data := [9, 8], ffilled := 0, fempty := 1 } 3
      = (0, { data := [9, 8], ffilled := 1, fempty := 1 }, 9) :=
  (C4_read_spec { data := [9, 8], ffilled := 0, fempty := 1 } 3).2 (by decide)

/-- C6: `lf256fifo_flush` sets `ffilled := fempty` and nothing else, so
the flushed state is empty and a subsequent read returns the Empty error
`-1` without changing the state. -/
theorem C6_flush_spec (q : lf256fifo) (c : Nat) :
    (lf256fifo_flush q).ffilled = q.fempty
    ∧ (lf256fifo_flush q).fempty = q.fempty
    ∧ (lf256fifo_flush q).data = q.data
    ∧ lf256fifo_is_empty (lf256fifo_flush q) = true
    ∧ lf256fifo_read (lf256fifo_flush q) c = (-1, lf256fifo_flush q, c) := by
  refine ⟨rfl, rfl, rfl, ?_, ?_⟩ <;>
    simp [lf256fifo_flush, lf256fifo_is_empty, lf256fifo_read]

/-- C7: `lf256fifo_init` returns `-EINVAL` exactly when the out-pointer
is missing, `-ENOMEM` exactly when the out-pointer is provided and one of
the two allocations fails, and otherwise succeeds with the zeroed state
`freshQueue`, which has `ffilled = fempty = 0` and is empty. -/
theorem C7_init_spec (p a1 a2 : Bool) :
    (lf256fifo_init p a1 a2 = .einval ↔ p = false)
    ∧ (lf256fifo_init p a1 a2 = .enomem ↔ (p = true ∧ (a1 = false ∨ a2 = false)))
    ∧ (lf256fifo_init p a1 a2 = .ok freshQueue ↔ (p = true ∧ a1 = true ∧ a2 = true))
    ∧ freshQueue.ffilled = 0 ∧ freshQueue.fempty = 0
    ∧ lf256fifo_is_empty freshQueue = true := by
  cases p <;> cases a1 <;> cases a2 <;>
    simp [lf256fifo_init, lf256fifo_is_empty] <;> exact ⟨rfl, rfl, rfl⟩

/-- C8: frame property.  `lf256fifo_write` never changes the consumer
index `ffilled` and never changes a buffer slot other than the one at the
old producer index `fempty`; `lf256fifo_read` never changes the producer
index `fempty` and never changes the buffer. -/
theorem C8_frame (q : lf256fifo) (c cIn i : Nat) (hi : i ≠ q.fempty) :
    (lf256fifo_write q c).2.ffilled = q.ffilled
    ∧ (lf256fifo_write q c).2.data.getD i 0 = q.data.getD i 0
    ∧ (lf256fifo_read q cIn).2.1.fempty = q.fempty
    ∧ (lf256fifo_read q cIn).2.1.data = q.data := by
  refine ⟨?_, ?_, ?_, ?_⟩
  · by_cases hfull : lf256fifo_is_full q <;> simp [lf256fifo_write, hfull]
  · by_cases hfull : lf256fifo_is_full q <;>
      simp [lf256fifo_write, hfull, List.getD, List.getElem?_set_ne (Ne.symm hi)]
  · by_cases hemp : lf256fifo_is_empty q <;> simp [lf256fifo_read, hemp]
  · by_cases hemp : lf256fifo_is_empty q <;> simp [lf256fifo_read, hemp]

/-- Witness for C8 at concrete inputs: writing into `⟨[1, 2, 3], 0, 1⟩`
keeps `ffilled` and slot 0; reading keeps `fempty` and the buffer. -/
theorem C8_frame_witness :
    (lf256fifo_write { data := [1, 2, 3], ffilled := 0, fempty := 1 } 7).2.ffilled = 0
    ∧ (lf256fifo_write { data := [1, 2, 3], ffilled := 0, fempty := 1 } 7).2.data.getD 0 0
      = ([1, 2, 3] : List Nat).getD 0 0
    ∧ (lf256fifo_read { data := [1, 2, 3], ffilled := 0, fempty := 1 } 5).2.1.fempty = 1
    ∧ (lf256fifo_read { data := [1, 2, 3], ffilled := 0, fempty := 1 } 5).2.1.data
      = [1, 2, 3] :=
  C8_frame { data := [1, 2, 3], ffilled := 0, fempty := 1 } 7 5 0 (by decide)

/-- C10: when `lf256fifo_read` is called on an empty fifo it returns `-1`
and the caller-supplied out-byte keeps its previous value: the out-pointer
is written only on the success path. -/
theorem C10_read_empty_keeps_out_byte (q : lf256fifo) (c : Nat)
    (h : q.fempty = q.ffilled) :
    (lf256fifo_read q c).1 = -1 ∧ (lf256fifo_read q c).2.2 = c := by
  constructor <;> simp [lf256fifo_read, lf256fifo_is_empty, h]

/-- Witness for C10 on the fresh (empty) queue with out-byte 77. -/
theorem C10_read_empty_keeps_out_byte_witness :
    (lf256fifo_read freshQueue 77).1 = -1
    ∧ (lf256fifo_read freshQueue 77).2.2 = 77 :=
  C10_read_empty_keeps_out_byte freshQueue 77 rfl

end LF256
